import Mathlib

set_option maxHeartbeats 1000000

/-!
Shallow embedding of `src/firmware/slave.c` (InterconnectIO_Slave firmware):
the diagnostic message queue, the sticky status flags, the 128-byte register
file, the I2C slave event handler with its write-phase and read-phase command
dispatch, and the boot sequence of `main` up to the background loop.

Machine integers are modelled as `Nat` with explicit `% 256` where the source
stores into a `uint8_t`, and with 32-bit masking where the source writes GPIO
hardware registers.  Fallible operations return a `Bool` or `Option` exactly
where the source does.
-/

/-- Size of each message in bytes (`MESSAGE_SIZE` in the source). -/
def MESSAGE_SIZE : Nat := 64

/-- Capacity of the queue (`QUEUE_SIZE` in the source). -/
def QUEUE_SIZE : Nat := 64

/-- Offset added to the two strap bits to form the I2C address
(`I2C_OFFSET_ADDRESS`). -/
def I2C_OFFSET_ADDRESS : Nat := 0x20

/-- The single device identity for which the port-wide mask commands are
valid (`PICO_PORT_ADDRESS`). -/
def PICO_PORT_ADDRESS : Nat := 0x21

/-- Register used to report status (`REG_STATUS`). -/
def REG_STATUS : Nat := 100

/-- Strap input pin for bit 0 of the I2C address (`I2C_SLAVE_ADDRESS_IO0`). -/
def I2C_SLAVE_ADDRESS_IO0 : Nat := 26

/-- Strap input pin for bit 1 of the I2C address (`I2C_SLAVE_ADDRESS_IO1`). -/
def I2C_SLAVE_ADDRESS_IO1 : Nat := 27

/-- SDA pin of the slave I2C interface (`I2C_SLAVE_SDA_PIN`). -/
def I2C_SLAVE_SDA_PIN : Nat := 20

/-- SCL pin of the slave I2C interface (`I2C_SLAVE_SCL_PIN`). -/
def I2C_SLAVE_SCL_PIN : Nat := 21

/-- Pins configured as GPIO at boot (`GPIO_BOOT_MASK`). -/
def GPIO_BOOT_MASK : Nat := 0b00011100010011111111111111111111

/-- 8-bit mask of port 0, pins 0-7 (`PORT0_MASK`). -/
def PORT0_MASK : Nat := 0xff

/-- Mask of port 1, pins 10-17 (`PORT1_MASK`). -/
def PORT1_MASK : Nat := 0b111111110000000000

/-- Shift applied to a byte before matching `PORT1_MASK` (`PORT1_OFFSET`). -/
def PORT1_OFFSET : Nat := 10

/-- Pins whose direction is configured per identity (`GPIO_SET_DIR_MASK`). -/
def GPIO_SET_DIR_MASK : Nat := 0b0011110001111111111111111111111

/-- Boot direction mask of the IO slave identity (`GPIO_SLV1_DIR_MASK`). -/
def GPIO_SLV1_DIR_MASK : Nat := 0b00010000000000000000000000000000

/-- Boot output mask of the IO slave identity (`GPIO_SLV1_OUT_MASK`). -/
def GPIO_SLV1_OUT_MASK : Nat := 0

/-- Boot direction mask of the relay slave identities (`GPIO_SLV2_DIR_MASK`). -/
def GPIO_SLV2_DIR_MASK : Nat := 0b0011110001111111111111111111111

/-- Boot output mask of the relay slave identities (`GPIO_SLV2_OUT_MASK`). -/
def GPIO_SLV2_OUT_MASK : Nat := 0

/-- Mask of GPIO bank 0, pins 0-7 (`GPIO_BANK0_MASK`). -/
def GPIO_BANK0_MASK : Nat := 0xff

/-- Mask of GPIO bank 1, pins 10-17 (`GPIO_BANK1_MASK`). -/
def GPIO_BANK1_MASK : Nat := 0b00000000000000111111110000000000

/-- Pico SDK drive strength constant `GPIO_DRIVE_STRENGTH_2MA`. -/
def GPIO_DRIVE_STRENGTH_2MA : Nat := 0

/-- Pico SDK drive strength constant `GPIO_DRIVE_STRENGTH_4MA`. -/
def GPIO_DRIVE_STRENGTH_4MA : Nat := 1

/-- Pico SDK drive strength constant `GPIO_DRIVE_STRENGTH_8MA`. -/
def GPIO_DRIVE_STRENGTH_8MA : Nat := 2

/-- Pico SDK drive strength constant `GPIO_DRIVE_STRENGTH_12MA`. -/
def GPIO_DRIVE_STRENGTH_12MA : Nat := 3

/-- Pico SDK function-select constant `GPIO_FUNC_I2C`. -/
def GPIO_FUNC_I2C : Nat := 3

/-- Pico SDK function-select constant `GPIO_FUNC_SIO`. -/
def GPIO_FUNC_SIO : Nat := 5

/-- Pico SDK board constant `PICO_DEFAULT_LED_PIN`. -/
def PICO_DEFAULT_LED_PIN : Nat := 25

/-- Modelled from the spec: the firmware's major version constant
`IO_SLAVE_VERSION_MAJOR`, defined in `userconfig.h` which is not part of the
sources; the spec only says it is a fixed constant, and no claim depends on
its value. -/
def IO_SLAVE_VERSION_MAJOR : Nat := 1

/-- Modelled from the spec: the firmware's minor version constant
`IO_SLAVE_VERSION_MINOR`, defined in `userconfig.h` which is not part of the
sources; the spec only says it is a fixed constant, and no claim depends on
its value. -/
def IO_SLAVE_VERSION_MINOR : Nat := 0

/-- All ones in 32 bits; hardware registers written by the firmware are
32 bits wide. -/
def UINT32_MASK : Nat := 2 ^ 32 - 1

/-- 32-bit complement `~m` of a mask. -/
def compl32 (m : Nat) : Nat := UINT32_MASK ^^^ (m &&& UINT32_MASK)

/-- One diagnostic record (`MESSAGE` in the source: a `char data[64]` buffer
filled by `sprintf`).  Each constructor stands for one of the distinct format
strings of the source together with the numeric values printed into it;
`zeroMsg` is the all-zero buffer produced by `memset`. -/
inductive MESSAGE where
  | zeroMsg
  | clearGpioMsg (cmd v : Nat)
  | setGpioMsg (cmd v : Nat)
  | clearBankMsg (cmd v : Nat)
  | setDirOutMsg (cmd v : Nat)
  | setDirInMsg (cmd v : Nat)
  | drive2mAMsg (cmd v : Nat)
  | drive4mAMsg (cmd v : Nat)
  | drive8mAMsg (cmd v : Nat)
  | drive12mAMsg (cmd v : Nat)
  | pullUpMsg (cmd v : Nat)
  | clearPullsMsg (cmd v : Nat)
  | pullDownMsg (cmd v : Nat)
  | padStateMsg (cmd v : Nat)
  | setPadStateMsg (cmd v state : Nat)
  | port0DirMsg (cmd mask : Nat)
  | port0OutMsg (cmd v : Nat)
  | port1DirMsg (cmd mask : Nat)
  | port1OutMsg (cmd v : Nat)
  | notValidMsg (cmd addr : Nat)
  | majVersionMsg (cmd v : Nat)
  | minVersionMsg (cmd v : Nat)
  | bankReadMsg (cmd bank read : Nat)
  | trueGpioMsg (cmd gpio state : Nat)
  | readDirMsg (cmd gpio state : Nat)
  | readStrengthMsg (cmd gpio state : Nat)
  | readPullUpMsg (cmd gpio state : Nat)
  | readPullDownMsg (cmd gpio state : Nat)
  | readPadMsg (cmd gpio state : Nat)
  | readPort0Msg (cmd v : Nat)
  | readPort1Msg (cmd v : Nat)
  | statusRegMsg (cmd v : Nat)
  | readCmdMsg (cmd v : Nat)
  | bootMsg (addr : Nat)
  | configDoneMsg (addr : Nat)
  | addrNotSupportedMsg (addr : Nat)
deriving DecidableEq

/-- The global queue structure of the source: a 64-slot array of messages,
a begin index, an end index and the current number of stored messages.  The
C index fields are `int` but are never negative (see the invariant claims),
so they are modelled as `Nat`; the array is modelled as a total function,
indexed in the source only at values below `QUEUE_SIZE`. -/
structure Queue where
  messages : Nat → MESSAGE
  begin : Nat
  «end» : Nat
  current_load : Nat

/-- The queue as C static storage holds before `main` runs: all bytes zero. -/
def zeroQueue : Queue :=
  { messages := fun _ => MESSAGE.zeroMsg, begin := 0, «end» := 0, current_load := 0 }

/-- `enque`: if the queue is not at capacity, wrap the end index lazily when
it equals `QUEUE_SIZE`, store the message there, advance the end index and
the load, and return `true`; otherwise return `false` and change nothing. -/
def enque (q : Queue) (message : MESSAGE) : Bool × Queue :=
  if q.current_load < QUEUE_SIZE then
    let e := if q.«end» = QUEUE_SIZE then 0 else q.«end»
    (true,
     { q with
       messages := Function.update q.messages e message
       «end» := e + 1
       current_load := q.current_load + 1 })
  else
    (false, q)

/-- `init_queue`: zero the begin index, the end index and the load, and
`memset` the message array.  The source's `memset` length is
`QUEUE_SIZE * sizeof(MESSAGE_SIZE)`; `MESSAGE_SIZE` is the literal `64`, so
`sizeof(MESSAGE_SIZE)` is `sizeof(int)` = 4 on the 32-bit RP2040 target and
the cleared length is 64 * 4 = 256 bytes.  Each `MESSAGE` is 64 bytes, so
exactly message slots 0, 1, 2 and 3 are cleared; the remaining 60 slots keep
their previous contents. -/
def init_queue (q : Queue) : Queue :=
  { begin := 0
    «end» := 0
    current_load := 0
    messages := fun i => if i < 4 then MESSAGE.zeroMsg else q.messages i }

/-- `deque`: if the queue holds a message, return the one at the begin index,
zero that slot, advance the begin index modulo `QUEUE_SIZE` and decrement the
load; otherwise return `none` and change nothing. -/
def deque (q : Queue) : Option MESSAGE × Queue :=
  if q.current_load > 0 then
    (some (q.messages q.begin),
     { q with
       messages := Function.update q.messages q.begin MESSAGE.zeroMsg
       begin := (q.begin + 1) % QUEUE_SIZE
       current_load := q.current_load - 1 })
  else
    (none, q)

/-- The `status` bit-field union: one sticky flag per error condition.  In the
source the bits share a byte read back through `all_flags`; the bit-field
layout on the target puts `cfg` at bit 0, `cmd` at bit 1, `error` at bit 2
and `watch` at bit 3. -/
structure Status where
  cfg : Bool
  cmd : Bool
  error : Bool
  watch : Bool
  sparesA : Bool
  sparesB : Bool
  sparesC : Bool
  sparesD : Bool

/-- The status flags packed into the single `all_flags` byte. -/
def Status.all_flags (s : Status) : Nat :=
  (if s.cfg then 1 else 0) + (if s.cmd then 2 else 0) +
  (if s.error then 4 else 0) + (if s.watch then 8 else 0) +
  (if s.sparesA then 16 else 0) + (if s.sparesB then 32 else 0) +
  (if s.sparesC then 64 else 0) + (if s.sparesD then 128 else 0)

/-- The `status` value with every flag cleared (`status.all_flags = 0`). -/
def statusZero : Status :=
  { cfg := false, cmd := false, error := false, watch := false,
    sparesA := false, sparesB := false, sparesC := false, sparesD := false }

/-- State of the GPIO hardware as seen through the Pico SDK calls the
firmware makes.  `out` and `dir` are the 32-bit output and direction
registers; `levels` is the 32-bit input register returned by `gpio_get_all`
(driven by the outside world); `funcsel`, `drive`, `pullup`, `pulldown` and
`pads` are the per-pin function select, drive strength, pull resistors and
raw pad registers. -/
structure GpioState where
  out : Nat
  dir : Nat
  levels : Nat
  funcsel : Nat → Nat
  drive : Nat → Nat
  pullup : Nat → Bool
  pulldown : Nat → Bool
  pads : Nat → Nat

/-- SDK `gpio_put`: drive one output bit high or low. -/
def gpio_put (g : GpioState) (pin : Nat) (value : Bool) : GpioState :=
  if value then
    { g with out := (g.out ||| ((1 <<< pin) &&& UINT32_MASK)) &&& UINT32_MASK }
  else
    { g with out := g.out &&& compl32 (1 <<< pin) }

/-- SDK `gpio_put_masked`: `out = (out & ~mask) | (value & mask)`. -/
def gpio_put_masked (g : GpioState) (mask value : Nat) : GpioState :=
  { g with out := (g.out &&& compl32 mask) ||| (value &&& mask) }

/-- SDK `gpio_set_dir`: set one pin's direction bit (true = output). -/
def gpio_set_dir (g : GpioState) (pin : Nat) (isOut : Bool) : GpioState :=
  if isOut then
    { g with dir := (g.dir ||| ((1 <<< pin) &&& UINT32_MASK)) &&& UINT32_MASK }
  else
    { g with dir := g.dir &&& compl32 (1 <<< pin) }

/-- SDK `gpio_set_dir_masked`: `dir = (dir & ~mask) | (value & mask)`. -/
def gpio_set_dir_masked (g : GpioState) (mask value : Nat) : GpioState :=
  { g with dir := (g.dir &&& compl32 mask) ||| (value &&& mask) }

/-- SDK `gpio_set_drive_strength`. -/
def gpio_set_drive_strength (g : GpioState) (pin strength : Nat) : GpioState :=
  { g with drive := Function.update g.drive pin strength }

/-- SDK `gpio_set_function`. -/
def gpio_set_function (g : GpioState) (pin fn : Nat) : GpioState :=
  { g with funcsel := Function.update g.funcsel pin fn }

/-- SDK `gpio_pull_up` = `gpio_set_pulls(pin, true, false)`. -/
def gpio_pull_up (g : GpioState) (pin : Nat) : GpioState :=
  { g with pullup := Function.update g.pullup pin true
           pulldown := Function.update g.pulldown pin false }

/-- SDK `gpio_pull_down` = `gpio_set_pulls(pin, false, true)`. -/
def gpio_pull_down (g : GpioState) (pin : Nat) : GpioState :=
  { g with pullup := Function.update g.pullup pin false
           pulldown := Function.update g.pulldown pin true }

/-- SDK `gpio_disable_pulls` = `gpio_set_pulls(pin, false, false)`. -/
def gpio_disable_pulls (g : GpioState) (pin : Nat) : GpioState :=
  { g with pullup := Function.update g.pullup pin false
           pulldown := Function.update g.pulldown pin false }

/-- SDK `hw_write_masked` applied to `pads_bank0_hw->io[pin]`:
`reg = (reg & ~mask) | (values & mask)`. -/
def pads_write_masked (g : GpioState) (pin values mask : Nat) : GpioState :=
  { g with pads := Function.update g.pads pin ((g.pads pin &&& compl32 mask) ||| (values &&& mask)) }

/-- SDK `gpio_get`: one bit of the input register. -/
def gpio_get (g : GpioState) (pin : Nat) : Bool := g.levels.testBit pin

/-- SDK `gpio_get_all`: the whole 32-bit input register. -/
def gpio_get_all (g : GpioState) : Nat := g.levels

/-- SDK `gpio_get_dir`: one bit of the direction register. -/
def gpio_get_dir (g : GpioState) (pin : Nat) : Bool := g.dir.testBit pin

/-- SDK `gpio_get_drive_strength`. -/
def gpio_get_drive_strength (g : GpioState) (pin : Nat) : Nat := g.drive pin

/-- SDK `gpio_is_pulled_up`. -/
def gpio_is_pulled_up (g : GpioState) (pin : Nat) : Bool := g.pullup pin

/-- SDK `gpio_is_pulled_down`. -/
def gpio_is_pulled_down (g : GpioState) (pin : Nat) : Bool := g.pulldown pin

/-- SDK `gpio_init`: set the pin's direction to input, its output to 0 and
its function to software IO. -/
def gpio_init (g : GpioState) (pin : Nat) : GpioState :=
  gpio_set_function (gpio_put (gpio_set_dir g pin false) pin false) pin GPIO_FUNC_SIO

/-- SDK `gpio_init_mask`: `gpio_init` every pin set in the mask; on the
packed registers this clears the mask's bits of `dir` and `out`. -/
def gpio_init_mask (g : GpioState) (mask : Nat) : GpioState :=
  { g with dir := g.dir &&& compl32 mask
           out := g.out &&& compl32 mask }

/-- The `context` structure: the 128-byte register file (`uint8_t reg[128]`,
modelled as a total function and indexed by the claims only below 128), the
selected register address (`reg_address`), the unused `reg_status` byte, the
address-received flag (`reg_address_written`) and the device's own resolved
I2C address (`i2c_add`). -/
structure Context where
  reg : Nat → Nat
  reg_address : Nat
  reg_status : Nat
  reg_address_written : Bool
  i2c_add : Nat

/-- The whole device state touched by the handler: the `context`, the
`status` flags, the GPIO hardware and the message queue. -/
structure Device where
  context : Context
  status : Status
  gpio : GpioState
  queue : Queue

/-- An `enque(&rec)` call whose boolean result is discarded, as every call
site in the source discards it. -/
def enqueD (d : Device) (m : MESSAGE) : Device :=
  { d with queue := (enque d.queue m).2 }

/-- The three I2C slave events dispatched by the handler; a receive event
carries the byte returned by `i2c_read_byte` (a `uint8_t`). -/
inductive I2CEvent where
  | receive (b : Nat)
  | request
  | finish

/-- The write-phase command dispatch: the inner `switch (cmd)` of the
`I2C_SLAVE_RECEIVE` branch, run on the device state after the data byte has
been stored into `reg[reg_address]`.  `cmd` is the selected address and `v`
is `context.reg[context.reg_address]`, the just-stored byte. -/
def write_command_action (d : Device) : Device :=
  let cmd := d.context.reg_address
  let v := d.context.reg d.context.reg_address
  if cmd = 10 then
    enqueD { d with gpio := gpio_put d.gpio v false } (MESSAGE.clearGpioMsg cmd v)
  else if cmd = 11 then
    enqueD { d with gpio := gpio_put d.gpio v true } (MESSAGE.setGpioMsg cmd v)
  else if cmd = 12 then
    if v < 10 then
      enqueD { d with gpio := gpio_put_masked d.gpio GPIO_BANK0_MASK 0 }
        (MESSAGE.clearBankMsg cmd v)
    else
      enqueD { d with gpio := gpio_put_masked d.gpio GPIO_BANK1_MASK 0 }
        (MESSAGE.clearBankMsg cmd v)
  else if cmd = 20 then
    enqueD { d with gpio := gpio_set_dir d.gpio v true } (MESSAGE.setDirOutMsg cmd v)
  else if cmd = 21 then
    enqueD { d with gpio := gpio_set_dir d.gpio v false } (MESSAGE.setDirInMsg cmd v)
  else if cmd = 30 then
    enqueD { d with gpio := gpio_set_drive_strength d.gpio v GPIO_DRIVE_STRENGTH_2MA }
      (MESSAGE.drive2mAMsg cmd v)
  else if cmd = 31 then
    enqueD { d with gpio := gpio_set_drive_strength d.gpio v GPIO_DRIVE_STRENGTH_4MA }
      (MESSAGE.drive4mAMsg cmd v)
  else if cmd = 32 then
    enqueD { d with gpio := gpio_set_drive_strength d.gpio v GPIO_DRIVE_STRENGTH_8MA }
      (MESSAGE.drive8mAMsg cmd v)
  else if cmd = 33 then
    enqueD { d with gpio := gpio_set_drive_strength d.gpio v GPIO_DRIVE_STRENGTH_12MA }
      (MESSAGE.drive12mAMsg cmd v)
  else if cmd = 41 then
    enqueD { d with gpio := gpio_pull_up d.gpio v } (MESSAGE.pullUpMsg cmd v)
  else if cmd = 50 then
    enqueD { d with gpio := gpio_disable_pulls d.gpio v } (MESSAGE.clearPullsMsg cmd v)
  else if cmd = 51 then
    enqueD { d with gpio := gpio_pull_down d.gpio v } (MESSAGE.pullDownMsg cmd v)
  else if cmd = 60 then
    enqueD d (MESSAGE.padStateMsg cmd v)
  else if cmd = 61 then
    enqueD { d with gpio := pads_write_masked d.gpio v (d.context.reg (cmd - 1)) 0xff }
      (MESSAGE.setPadStateMsg cmd v (d.context.reg (cmd - 1)))
  else if cmd = 80 then
    if d.context.i2c_add = PICO_PORT_ADDRESS then
      enqueD { d with gpio := gpio_set_dir_masked d.gpio PORT0_MASK v }
        (MESSAGE.port0DirMsg cmd v)
    else
      enqueD { d with status := { d.status with cmd := true } }
        (MESSAGE.notValidMsg cmd d.context.i2c_add)
  else if cmd = 81 then
    if d.context.i2c_add = PICO_PORT_ADDRESS then
      enqueD { d with gpio := gpio_put_masked d.gpio PORT0_MASK v }
        (MESSAGE.port0OutMsg cmd v)
    else
      enqueD { d with status := { d.status with cmd := true } }
        (MESSAGE.notValidMsg cmd d.context.i2c_add)
  else if cmd = 90 then
    if d.context.i2c_add = PICO_PORT_ADDRESS then
      enqueD { d with gpio := gpio_set_dir_masked d.gpio PORT1_MASK (v <<< PORT1_OFFSET) }
        (MESSAGE.port1DirMsg cmd (v <<< PORT1_OFFSET))
    else
      enqueD { d with status := { d.status with cmd := true } }
        (MESSAGE.notValidMsg cmd d.context.i2c_add)
  else if cmd = 91 then
    if d.context.i2c_add = PICO_PORT_ADDRESS then
      enqueD { d with gpio := gpio_put_masked d.gpio PORT1_MASK (v <<< PORT1_OFFSET) }
        (MESSAGE.port1OutMsg cmd v)
    else
      -- NOTE: unlike the rejection branches of commands 80, 81, 90, 85 and
      -- 95, the source's case 91 rejection branch does not execute
      -- `status.cmd = 1`; it only formats the rejection trace.
      enqueD d (MESSAGE.notValidMsg cmd d.context.i2c_add)
  else
    d

/-- The read-phase command dispatch: the inner `switch (cmd)` of the
`I2C_SLAVE_REQUEST` branch, which may refresh `reg[reg_address]` from the
hardware (or from constants / the flags byte) and queue a trace record
before the byte is returned. -/
def read_command_action (d : Device) : Device :=
  let cmd := d.context.reg_address
  if cmd = 1 then
    enqueD { d with context := { d.context with
        reg := Function.update d.context.reg cmd IO_SLAVE_VERSION_MAJOR } }
      (MESSAGE.majVersionMsg cmd IO_SLAVE_VERSION_MAJOR)
  else if cmd = 2 then
    enqueD { d with context := { d.context with
        reg := Function.update d.context.reg cmd IO_SLAVE_VERSION_MINOR } }
      (MESSAGE.minVersionMsg cmd IO_SLAVE_VERSION_MINOR)
  else if cmd = 13 then
    let lvalue := gpio_get_all d.gpio
    let svalue := if d.context.reg cmd < 10 then lvalue % 256 else (lvalue >>> 10) % 256
    let d1 := enqueD d (MESSAGE.bankReadMsg cmd (d.context.reg cmd) svalue)
    { d1 with context := { d1.context with
        reg := Function.update d1.context.reg cmd svalue } }
  else if cmd = 15 then
    let tvalue := if gpio_get d.gpio (d.context.reg cmd) then 1 else 0
    let d1 := enqueD d (MESSAGE.trueGpioMsg cmd (d.context.reg cmd) tvalue)
    { d1 with context := { d1.context with
        reg := Function.update d1.context.reg cmd tvalue } }
  else if cmd = 25 then
    let tvalue := if gpio_get_dir d.gpio (d.context.reg cmd) then 1 else 0
    let d1 := enqueD d (MESSAGE.readDirMsg cmd (d.context.reg cmd) tvalue)
    { d1 with context := { d1.context with
        reg := Function.update d1.context.reg cmd tvalue } }
  else if cmd = 35 then
    let svalue := gpio_get_drive_strength d.gpio (d.context.reg cmd)
    let d1 := enqueD d (MESSAGE.readStrengthMsg cmd (d.context.reg cmd) svalue)
    { d1 with context := { d1.context with
        reg := Function.update d1.context.reg cmd svalue } }
  else if cmd = 45 then
    let tvalue := if gpio_is_pulled_up d.gpio (d.context.reg cmd) then 1 else 0
    let d1 := enqueD d (MESSAGE.readPullUpMsg cmd (d.context.reg cmd) tvalue)
    { d1 with context := { d1.context with
        reg := Function.update d1.context.reg cmd tvalue } }
  else if cmd = 55 then
    let tvalue := if gpio_is_pulled_down d.gpio (d.context.reg cmd) then 1 else 0
    let d1 := enqueD d (MESSAGE.readPullDownMsg cmd (d.context.reg cmd) tvalue)
    { d1 with context := { d1.context with
        reg := Function.update d1.context.reg cmd tvalue } }
  else if cmd = 65 then
    let svalue := d.gpio.pads (d.context.reg cmd) &&& 0xff
    let d1 := enqueD d (MESSAGE.readPadMsg cmd (d.context.reg cmd) svalue)
    { d1 with context := { d1.context with
        reg := Function.update d1.context.reg cmd svalue } }
  else if cmd = 85 then
    if d.context.i2c_add = PICO_PORT_ADDRESS then
      let svalue := gpio_get_all d.gpio % 256
      enqueD { d with context := { d.context with
          reg := Function.update d.context.reg cmd svalue } }
        (MESSAGE.readPort0Msg cmd svalue)
    else
      enqueD { d with status := { d.status with cmd := true } }
        (MESSAGE.notValidMsg cmd d.context.i2c_add)
  else if cmd = 95 then
    if d.context.i2c_add = PICO_PORT_ADDRESS then
      let svalue := (gpio_get_all d.gpio >>> PORT1_OFFSET) % 256
      enqueD { d with context := { d.context with
          reg := Function.update d.context.reg cmd svalue } }
        (MESSAGE.readPort1Msg cmd svalue)
    else
      enqueD { d with status := { d.status with cmd := true } }
        (MESSAGE.notValidMsg cmd d.context.i2c_add)
  else if cmd = 100 then
    enqueD { d with context := { d.context with
        reg := Function.update d.context.reg REG_STATUS d.status.all_flags } }
      (MESSAGE.statusRegMsg cmd d.status.all_flags)
  else
    d

/-- The I2C slave event handler `i2c_slave_handler`.  On a receive event the
first byte of a transaction becomes the register address and later bytes are
stored into `reg[reg_address]` and dispatched as write-phase commands; on a
request event the read-phase dispatch may refresh the cell, the cell's value
is written to the bus (returned as `some` byte) and a final trace record of
the returned value is queued; on a finish event only the address-received
flag is cleared. -/
def i2c_slave_handler (d : Device) (event : I2CEvent) : Device × Option Nat :=
  match event with
  | I2CEvent.receive b =>
    if !d.context.reg_address_written then
      ({ d with context := { d.context with
           reg_address := b % 256
           reg_address_written := true } }, none)
    else
      let d1 := { d with context := { d.context with
        reg := Function.update d.context.reg d.context.reg_address (b % 256) } }
      (write_command_action d1, none)
  | I2CEvent.request =>
    let d1 := read_command_action d
    let out := d1.context.reg d1.context.reg_address
    (enqueD d1 (MESSAGE.readCmdMsg d.context.reg_address out), some out)
  | I2CEvent.finish =>
    ({ d with context := { d.context with reg_address_written := false } }, none)

/-- `read_i2c_address`: configure the two strap pins as pulled-up software
inputs, read them, and return `I2C_OFFSET_ADDRESS + (io1 << 1) + io0`
(stored in a `uint8_t`, hence `% 256`), together with the GPIO state after
the pin configuration. -/
def read_i2c_address (g : GpioState) : GpioState × Nat :=
  let g1 := gpio_pull_up
    (gpio_set_dir (gpio_set_function g I2C_SLAVE_ADDRESS_IO0 GPIO_FUNC_SIO)
      I2C_SLAVE_ADDRESS_IO0 false) I2C_SLAVE_ADDRESS_IO0
  let g2 := gpio_pull_up
    (gpio_set_dir (gpio_set_function g1 I2C_SLAVE_ADDRESS_IO1 GPIO_FUNC_SIO)
      I2C_SLAVE_ADDRESS_IO1 false) I2C_SLAVE_ADDRESS_IO1
  let io0 := if gpio_get g2 I2C_SLAVE_ADDRESS_IO0 then 1 else 0
  let io1 := if gpio_get g2 I2C_SLAVE_ADDRESS_IO1 then 1 else 0
  (g2, (I2C_OFFSET_ADDRESS + (io1 <<< 1) + io0) % 256)

/-- GPIO side of `setup_slave`: initialise the SDA and SCL pins, select the
I2C function on them and enable their pull-ups.  (`i2c_init` and
`i2c_slave_init` touch only the I2C peripheral; the address registration is
recorded in `BootResult.slaveRegisteredAt`.) -/
def setup_slave_gpio (g : GpioState) : GpioState :=
  let g1 := gpio_pull_up
    (gpio_set_function (gpio_init g I2C_SLAVE_SDA_PIN) I2C_SLAVE_SDA_PIN GPIO_FUNC_I2C)
    I2C_SLAVE_SDA_PIN
  gpio_pull_up
    (gpio_set_function (gpio_init g1 I2C_SLAVE_SCL_PIN) I2C_SLAVE_SCL_PIN GPIO_FUNC_I2C)
    I2C_SLAVE_SCL_PIN

/-- The `switch (context.i2c_add)` of `main`: per-identity boot
configuration.  Identity `0x21` and identities `0x22`/`0x23` apply their
masked direction and output writes and format a completion message; any
other identity raises the `cfg` flag, formats the not-supported message and
performs no GPIO write.  Returns the updated flags, the updated GPIO state
and the message that `main` enqueues right after the switch. -/
def identity_config (st : Status) (g : GpioState) (i2c_add : Nat) :
    Status × GpioState × MESSAGE :=
  if i2c_add = 0x21 then
    (st,
     gpio_put_masked (gpio_set_dir_masked g GPIO_SET_DIR_MASK GPIO_SLV1_DIR_MASK)
       GPIO_SET_DIR_MASK GPIO_SLV1_OUT_MASK,
     MESSAGE.configDoneMsg i2c_add)
  else if i2c_add = 0x22 ∨ i2c_add = 0x23 then
    (st,
     gpio_put_masked (gpio_set_dir_masked g GPIO_SET_DIR_MASK GPIO_SLV2_DIR_MASK)
       GPIO_SET_DIR_MASK GPIO_SLV2_OUT_MASK,
     MESSAGE.configDoneMsg i2c_add)
  else
    ({ st with cfg := true }, g, MESSAGE.addrNotSupportedMsg i2c_add)

/-- LED configuration at the end of the boot sequence: initialise the board
LED pin, make it an output and drive it high. -/
def led_config (g : GpioState) : GpioState :=
  gpio_put (gpio_set_dir (gpio_init g PICO_DEFAULT_LED_PIN) PICO_DEFAULT_LED_PIN true)
    PICO_DEFAULT_LED_PIN true

/-- Result of the boot sequence of `main`, immediately before the infinite
background loop: the device state, the LED pulse period, the address passed
to `i2c_slave_init` (the slave registration), and whether control reaches
the background loop (no path in `main` returns or halts before it). -/
structure BootResult where
  device : Device
  pulse : Nat
  slaveRegisteredAt : Option Nat
  entersMainLoop : Bool

/-- The boot sequence of `main` up to the background loop: clear the status
flags (setting `watch` and the fast pulse if the reboot was caused by the
watchdog), configure the boot GPIO mask, initialise the queue (whose static
storage is zero before `main` runs), resolve the device identity from the
strap pins, enqueue the boot message, run the per-identity configuration
switch, enqueue its message, set up the I2C slave role and the LED, and
enter the loop.  The `context` structure has static storage and is zero
before `main` runs; only `i2c_add` is assigned during boot. -/
def main_boot (watchdogCausedReboot : Bool) (g0 : GpioState) : BootResult :=
  let st1 := if watchdogCausedReboot then { statusZero with watch := true } else statusZero
  let pulse := if watchdogCausedReboot then 50 else 200
  let g1 := gpio_init_mask g0 GPIO_BOOT_MASK
  let q1 := init_queue zeroQueue
  let g2 := (read_i2c_address g1).1
  let i2c_add := (read_i2c_address g1).2
  let q2 := (enque q1 (MESSAGE.bootMsg i2c_add)).2
  let cfg := identity_config st1 g2 i2c_add
  let q3 := (enque q2 cfg.2.2).2
  let g3 := setup_slave_gpio cfg.2.1
  let g4 := led_config g3
  { device :=
      { context :=
          { reg := fun _ => 0
            reg_address := 0
            reg_status := 0
            reg_address_written := false
            i2c_add := i2c_add }
        status := cfg.1
        gpio := g4
        queue := q3 }
    pulse := pulse
    slaveRegisteredAt := some i2c_add
    entersMainLoop := true }

/-- The identity `main_boot` resolves from the strap pins. -/
def boot_identity (g0 : GpioState) : Nat :=
  (read_i2c_address (gpio_init_mask g0 GPIO_BOOT_MASK)).2

/-- The register addresses that appear as cases of the write-phase `switch`
of the handler (the write-phase command identifiers). -/
def isWritePhaseCmd (cmd : Nat) : Prop :=
  cmd = 10 ∨ cmd = 11 ∨ cmd = 12 ∨ cmd = 20 ∨ cmd = 21 ∨ cmd = 30 ∨ cmd = 31 ∨
  cmd = 32 ∨ cmd = 33 ∨ cmd = 41 ∨ cmd = 50 ∨ cmd = 51 ∨ cmd = 60 ∨ cmd = 61 ∨
  cmd = 80 ∨ cmd = 81 ∨ cmd = 90 ∨ cmd = 91

instance (c : Nat) : Decidable (isWritePhaseCmd c) := by
  unfold isWritePhaseCmd; infer_instance

/-- The register addresses whose read-phase dispatch overwrites
`reg[reg_address]` before the byte is returned, as a function of the device
identity: commands 1, 2, 13, 15, 25, 35, 45, 55, 65 and 100 always refresh
the cell; the identity-gated port getters 85 and 95 refresh it only when the
identity is `PICO_PORT_ADDRESS` (their rejection branches leave the cell
untouched). -/
def refreshesOnRead (cmd i2c_add : Nat) : Prop :=
  cmd = 1 ∨ cmd = 2 ∨ cmd = 13 ∨ cmd = 15 ∨ cmd = 25 ∨ cmd = 35 ∨ cmd = 45 ∨
  cmd = 55 ∨ cmd = 65 ∨ cmd = 100 ∨
  ((cmd = 85 ∨ cmd = 95) ∧ i2c_add = PICO_PORT_ADDRESS)

instance (c i : Nat) : Decidable (refreshesOnRead c i) := by
  unfold refreshesOnRead; infer_instance

/-- Abstraction of the circular buffer to the list of its live records in
arrival order: the `current_load` messages starting at the begin index,
wrapping modulo `QUEUE_SIZE`. -/
def Queue.toList (q : Queue) : List MESSAGE :=
  (List.range q.current_load).map (fun i => q.messages ((q.begin + i) % QUEUE_SIZE))

/-- Structural well-formedness of the queue, established by `init_queue` and
preserved by `enque` and `deque`: the load is at most the capacity, the
begin index is in range, the end index is at most `QUEUE_SIZE` (it may equal
`QUEUE_SIZE` transiently because `enque` wraps it lazily), and the end index
marks the slot `current_load` places after the begin index, modulo the
capacity. -/
structure Queue.wf (q : Queue) : Prop where
  load_le : q.current_load ≤ QUEUE_SIZE
  begin_lt : q.begin < QUEUE_SIZE
  end_le : q.«end» ≤ QUEUE_SIZE
  align : q.«end» % QUEUE_SIZE = (q.begin + q.current_load) % QUEUE_SIZE

/-- One queue operation of a producer/consumer trace. -/
inductive QOp where
  | enq (m : MESSAGE)
  | deq

/-- Run a trace of queue operations, counting the successful enqueues and
the successful dequeues. -/
def runOps (q : Queue) : List QOp → Queue × Nat × Nat
  | [] => (q, 0, 0)
  | QOp.enq m :: rest =>
    let r := enque q m
    let t := runOps r.2 rest
    (t.1, (if r.1 then 1 else 0) + t.2.1, t.2.2)
  | QOp.deq :: rest =>
    let r := deque q
    let t := runOps r.2 rest
    (t.1, t.2.1, (if r.1.isSome then 1 else 0) + t.2.2)

/-- A concrete GPIO state with every register zero, used by the concrete
evaluations below. -/
def gpio0 : GpioState :=
  { out := 0, dir := 0, levels := 0
    funcsel := fun _ => 0
    drive := fun _ => 0
    pullup := fun _ => false
    pulldown := fun _ => false
    pads := fun _ => 0 }

/-- A concrete device in the IDLE state with the non-port identity `0x22`,
a zeroed register file, cleared flags and an empty queue. -/
def dev0 : Device :=
  { context := { reg := fun _ => 0, reg_address := 0, reg_status := 0,
                 reg_address_written := false, i2c_add := 0x22 }
    status := statusZero
    gpio := gpio0
    queue := zeroQueue }

/-- A concrete device of the non-port identity `0x22` with address byte 91
already received, used to evaluate the rejection path of command 91. -/
def dev91 : Device :=
  { context := { reg := fun _ => 0, reg_address := 91, reg_status := 0,
                 reg_address_written := true, i2c_add := 0x22 }
    status := statusZero
    gpio := gpio0
    queue := zeroQueue }

/-- A concrete device of the port identity `0x21` with address byte 11
already received. -/
def devW : Device :=
  { context := { reg := fun _ => 0, reg_address := 11, reg_status := 0,
                 reg_address_written := true, i2c_add := 0x21 }
    status := statusZero
    gpio := gpio0
    queue := zeroQueue }

/-- A concrete queue whose slots all hold a nonzero record. -/
def qDirty : Queue :=
  { messages := fun _ => MESSAGE.bootMsg 0x21, begin := 7, «end» := 7, current_load := 64 }

/-- A concrete queue at capacity. -/
def fullQ : Queue :=
  { messages := fun _ => MESSAGE.zeroMsg, begin := 0, «end» := 64, current_load := 64 }

/-- A concrete well-formed queue holding one record. -/
def q1 : Queue :=
  { messages := Function.update (fun _ => MESSAGE.zeroMsg) 0 (MESSAGE.bootMsg 1)
    begin := 0
    «end» := 1
    current_load := 1 }

/-- The write-phase dispatch never touches the `context` structure: every
case writes only the GPIO hardware, the status flags or the queue. -/
theorem wca_context (d : Device) : (write_command_action d).context = d.context := by
  unfold write_command_action enqueD
  dsimp only
  simp only [apply_ite Device.context, ite_self]

/-- The read-phase dispatch never changes the selected register address. -/
theorem rca_reg_address (d : Device) :
    (read_command_action d).context.reg_address = d.context.reg_address := by
  unfold read_command_action enqueD
  dsimp only
  simp only [apply_ite Device.context, apply_ite Context.reg_address, ite_self]

/-- The read-phase dispatch never changes the address-received flag. -/
theorem rca_written (d : Device) :
    (read_command_action d).context.reg_address_written = d.context.reg_address_written := by
  unfold read_command_action enqueD
  dsimp only
  simp only [apply_ite Device.context, apply_ite Context.reg_address_written, ite_self]

/-- The read-phase dispatch never changes the device's own I2C address. -/
theorem rca_i2c_add (d : Device) :
    (read_command_action d).context.i2c_add = d.context.i2c_add := by
  unfold read_command_action enqueD
  dsimp only
  simp only [apply_ite Device.context, apply_ite Context.i2c_add, ite_self]

/-- If the selected address is not a cell-refreshing read command for this
identity, the read-phase dispatch leaves the whole register file unchanged. -/
theorem rca_reg_of_not_refresh (d : Device)
    (h : ¬ refreshesOnRead d.context.reg_address d.context.i2c_add) :
    (read_command_action d).context.reg = d.context.reg := by
  unfold refreshesOnRead at h
  push_neg at h
  obtain ⟨h1, h2, h13, h15, h25, h35, h45, h55, h65, h100, hport⟩ := h
  unfold read_command_action enqueD
  dsimp only
  simp only [apply_ite Device.context, apply_ite Context.reg]
  rw [if_neg h1, if_neg h2, if_neg h13, if_neg h15, if_neg h25, if_neg h35,
    if_neg h45, if_neg h55, if_neg h65]
  by_cases c85 : d.context.reg_address = 85
  · rw [if_pos c85, if_neg (hport (Or.inl c85))]
  · rw [if_neg c85]
    by_cases c95 : d.context.reg_address = 95
    · rw [if_pos c95, if_neg (hport (Or.inr c95))]
    · rw [if_neg c95, if_neg h100]

/-- A byte received while no address byte is pending is handled as an
address byte: it becomes `reg_address`, the flag is set, and nothing else
happens. -/
theorem receive_idle_eq (d : Device) (b : Nat)
    (h : d.context.reg_address_written = false) :
    i2c_slave_handler d (I2CEvent.receive b) =
      ({ d with context := { d.context with
          reg_address := b % 256
          reg_address_written := true } }, none) := by
  unfold i2c_slave_handler
  rw [h]
  rfl

/-- C4: a transaction-finished event sets the address-received flag to false
and changes nothing else: the selected address, the register file, the
status flags, the GPIO state and the queue are unchanged, and no byte is
written to the bus. -/
theorem C4_finish_frame (d : Device) :
    (i2c_slave_handler d I2CEvent.finish).1.context.reg_address_written = false ∧
    (i2c_slave_handler d I2CEvent.finish).1.context.reg_address = d.context.reg_address ∧
    (i2c_slave_handler d I2CEvent.finish).1.context.reg = d.context.reg ∧
    (i2c_slave_handler d I2CEvent.finish).1.status = d.status ∧
    (i2c_slave_handler d I2CEvent.finish).1.gpio = d.gpio ∧
    (i2c_slave_handler d I2CEvent.finish).1.queue = d.queue ∧
    (i2c_slave_handler d I2CEvent.finish).2 = none :=
  ⟨rfl, rfl, rfl, rfl, rfl, rfl, rfl⟩

/-- C5: two address bytes received in the IDLE state (with a
transaction-finished event between them and no data byte): each receive only
replaces the selected address and sets the flag; after the second one the
selected address is the second byte and the register file, status flags,
GPIO state and queue are those of the initial state, with no byte written to
the bus by any of the three events. -/
theorem C5_second_address_byte (d : Device) (a1 a2 : Nat)
    (h : d.context.reg_address_written = false) :
    (i2c_slave_handler d (I2CEvent.receive a1)).1.context.reg_address = a1 % 256 ∧
    (i2c_slave_handler ((i2c_slave_handler ((i2c_slave_handler d
        (I2CEvent.receive a1)).1) I2CEvent.finish).1)
        (I2CEvent.receive a2)).1.context.reg_address = a2 % 256 ∧
    (i2c_slave_handler ((i2c_slave_handler ((i2c_slave_handler d
        (I2CEvent.receive a1)).1) I2CEvent.finish).1)
        (I2CEvent.receive a2)).1.context.reg_address_written = true ∧
    (i2c_slave_handler ((i2c_slave_handler ((i2c_slave_handler d
        (I2CEvent.receive a1)).1) I2CEvent.finish).1)
        (I2CEvent.receive a2)).1.context.reg = d.context.reg ∧
    (i2c_slave_handler ((i2c_slave_handler ((i2c_slave_handler d
        (I2CEvent.receive a1)).1) I2CEvent.finish).1)
        (I2CEvent.receive a2)).1.status = d.status ∧
    (i2c_slave_handler ((i2c_slave_handler ((i2c_slave_handler d
        (I2CEvent.receive a1)).1) I2CEvent.finish).1)
        (I2CEvent.receive a2)).1.gpio = d.gpio ∧
    (i2c_slave_handler ((i2c_slave_handler ((i2c_slave_handler d
        (I2CEvent.receive a1)).1) I2CEvent.finish).1)
        (I2CEvent.receive a2)).1.queue = d.queue ∧
    (i2c_slave_handler d (I2CEvent.receive a1)).2 = none ∧
    (i2c_slave_handler ((i2c_slave_handler ((i2c_slave_handler d
        (I2CEvent.receive a1)).1) I2CEvent.finish).1)
        (I2CEvent.receive a2)).2 = none := by
  rw [receive_idle_eq d a1 h]
  exact ⟨rfl, rfl, rfl, rfl, rfl, rfl, rfl, rfl, rfl⟩

/-- C6: a data byte received while an address byte is pending is stored into
`reg[reg_address]` (truncated to a byte) before the write-phase dispatch
runs on the updated state, the selected address does not change (so repeated
data bytes of one transaction overwrite the same cell), the register file of
the result is exactly the one-cell overwrite of the original, and the stored
cell holds the just-written byte, which is the value the dispatch reads. -/
theorem C6_data_byte_store (d : Device) (b : Nat)
    (h : d.context.reg_address_written = true) :
    (i2c_slave_handler d (I2CEvent.receive b)).1 =
      write_command_action { d with context := { d.context with
        reg := Function.update d.context.reg d.context.reg_address (b % 256) } } ∧
    (i2c_slave_handler d (I2CEvent.receive b)).1.context.reg_address =
      d.context.reg_address ∧
    (i2c_slave_handler d (I2CEvent.receive b)).1.context.reg =
      Function.update d.context.reg d.context.reg_address (b % 256) ∧
    (i2c_slave_handler d (I2CEvent.receive b)).1.context.reg d.context.reg_address =
      b % 256 ∧
    (i2c_slave_handler d (I2CEvent.receive b)).2 = none := by
  have e : i2c_slave_handler d (I2CEvent.receive b) =
      (write_command_action { d with context := { d.context with
        reg := Function.update d.context.reg d.context.reg_address (b % 256) } }, none) := by
    unfold i2c_slave_handler
    rw [h]
    rfl
  rw [e]
  refine ⟨rfl, ?_, ?_, ?_, rfl⟩
  · rw [wca_context]
  · rw [wca_context]
  · rw [wca_context]
    exact Function.update_same _ _ _

/-- A byte received while an address byte is pending is stored and
dispatched: the handler equals the write-phase dispatch applied to the
device with the byte stored into `reg[reg_address]`. -/
theorem receive_data_eq (d : Device) (b : Nat)
    (h : d.context.reg_address_written = true) :
    i2c_slave_handler d (I2CEvent.receive b) =
      (write_command_action { d with context := { d.context with
        reg := Function.update d.context.reg d.context.reg_address (b % 256) } },
       none) := by
  unfold i2c_slave_handler
  rw [h]
  rfl

/-- Unfolding of the handler on a transaction-finished event. -/
theorem finish_eq (d : Device) :
    i2c_slave_handler d I2CEvent.finish =
      ({ d with context := { d.context with reg_address_written := false } }, none) := rfl

/-- On a request event for a non-refreshing selected address, the byte
written to the bus is the stored register value. -/
theorem request_out (d : Device)
    (hr : ¬ refreshesOnRead d.context.reg_address d.context.i2c_add) :
    (i2c_slave_handler d I2CEvent.request).2 =
      some (d.context.reg d.context.reg_address) := by
  unfold i2c_slave_handler
  dsimp only
  rw [rca_reg_address, rca_reg_of_not_refresh d hr]

/-- Context after an address byte, a data byte and a transaction-finished
event starting from the IDLE state: the byte is stored at the address, the
address is selected, and the flag is clear again. -/
theorem handler_wr_context (d : Device) (a v : Nat)
    (h : d.context.reg_address_written = false) :
    ((i2c_slave_handler ((i2c_slave_handler ((i2c_slave_handler d
        (I2CEvent.receive a)).1) (I2CEvent.receive v)).1) I2CEvent.finish).1).context =
      { d.context with
        reg := Function.update d.context.reg (a % 256) (v % 256)
        reg_address := a % 256
        reg_address_written := false } := by
  rw [receive_idle_eq d a h]
  rw [receive_data_eq _ v rfl]
  rw [finish_eq]
  dsimp only
  rw [wca_context]

/-- C1 (failing input): a data byte for command 91 (set port-1 output by
mask) on a device whose identity `0x22` is not the port identity: the GPIO
state is unchanged, the written byte is stored in the register cell, the
rejection trace record is enqueued — but, contrary to the claim and to the
symmetric rejection branches of commands 80, 81, 90, 85 and 95, the `cmd`
status flag is NOT set. -/
theorem C1_cmd91_flag_not_raised :
    (i2c_slave_handler dev91 (I2CEvent.receive 0xff)).1.status.cmd = false ∧
    (i2c_slave_handler dev91 (I2CEvent.receive 0xff)).1.gpio = dev91.gpio ∧
    (i2c_slave_handler dev91 (I2CEvent.receive 0xff)).1.context.reg 91 = 0xff ∧
    (i2c_slave_handler dev91 (I2CEvent.receive 0xff)).1.queue.current_load = 1 ∧
    (i2c_slave_handler dev91 (I2CEvent.receive 0xff)).1.queue.messages 0 =
      MESSAGE.notValidMsg 91 0x22 ∧
    dev91.context.i2c_add ≠ PICO_PORT_ADDRESS :=
  ⟨rfl, rfl, rfl, rfl, rfl, by decide⟩

/-- C2 (failing input): `init_queue` on a queue whose slots hold nonzero
records zeroes the three counters and slots 0-3, but leaves slot 4 (and the
other 59 slots) uncleared, because the `memset` length is
`QUEUE_SIZE * sizeof(MESSAGE_SIZE)` = 64 * sizeof(int) = 256 bytes instead
of `QUEUE_SIZE * sizeof(MESSAGE)` = 4096 bytes. -/
theorem C2_init_queue_partial_clear :
    (init_queue qDirty).begin = 0 ∧
    (init_queue qDirty).«end» = 0 ∧
    (init_queue qDirty).current_load = 0 ∧
    (init_queue qDirty).messages 0 = MESSAGE.zeroMsg ∧
    (init_queue qDirty).messages 3 = MESSAGE.zeroMsg ∧
    (init_queue qDirty).messages 4 = MESSAGE.bootMsg 0x21 ∧
    MESSAGE.bootMsg 0x21 ≠ MESSAGE.zeroMsg :=
  ⟨rfl, rfl, rfl, rfl, rfl, rfl, by decide⟩

/-- C3 (counterexample): address 100 is not a write-phase command, so the
claim as stated demands that a read at address 100 after writing 5 there
returns 5; but the read-phase dispatch overwrites the cell with the flags
byte (0 here) before returning it. -/
theorem C3_counterexample :
    ¬ isWritePhaseCmd 100 ∧
    (i2c_slave_handler (i2c_slave_handler (i2c_slave_handler (i2c_slave_handler dev0
        (I2CEvent.receive 100)).1 (I2CEvent.receive 5)).1 I2CEvent.finish).1
        I2CEvent.request).2 = some 0 ∧
    (0 : Nat) ≠ 5 :=
  ⟨by decide, by decide, by decide⟩

/-- C3 (amended): for every address `a` below 128 and byte `v` written to
`a` by a write transaction, a subsequent read transaction at `a` returns
`v`, unless `a` is a read-phase command that refreshes the cell from the
hardware/constants/flags before returning it (commands 1, 2, 13, 15, 25,
35, 45, 55, 65, 100 always; the port getters 85 and 95 only when the device
identity is the port identity `0x21`). -/
theorem C3_read_after_write (d : Device) (a v : Nat)
    (ha : a < 128) (hv : v < 256)
    (h : d.context.reg_address_written = false)
    (hr : ¬ refreshesOnRead a d.context.i2c_add) :
    (i2c_slave_handler (i2c_slave_handler (i2c_slave_handler (i2c_slave_handler d
        (I2CEvent.receive a)).1 (I2CEvent.receive v)).1 I2CEvent.finish).1
        I2CEvent.request).2 = some v := by
  have ha' : a % 256 = a := Nat.mod_eq_of_lt (by omega)
  have hv' : v % 256 = v := Nat.mod_eq_of_lt hv
  set S := (i2c_slave_handler (i2c_slave_handler (i2c_slave_handler d
      (I2CEvent.receive a)).1 (I2CEvent.receive v)).1 I2CEvent.finish).1 with hS
  have hc := handler_wr_context d a v h
  rw [← hS, ha', hv'] at hc
  have hr' : ¬ refreshesOnRead S.context.reg_address S.context.i2c_add := by
    rw [hc]
    exact hr
  rw [request_out S hr', hc]
  dsimp only
  rw [Function.update_same]

/-- Witness instantiating `C3_read_after_write` at a concrete device,
address 7 and byte 42. -/
theorem C3_read_after_write_witness :
    7 < 128 ∧ 42 < 256 ∧ dev0.context.reg_address_written = false ∧
    ¬ refreshesOnRead 7 dev0.context.i2c_add ∧
    (i2c_slave_handler (i2c_slave_handler (i2c_slave_handler (i2c_slave_handler dev0
        (I2CEvent.receive 7)).1 (I2CEvent.receive 42)).1 I2CEvent.finish).1
        I2CEvent.request).2 = some 42 :=
  ⟨by decide, by decide, rfl, by decide,
   C3_read_after_write dev0 7 42 (by decide) (by decide) rfl (by decide)⟩

/-- Witness instantiating `C5_second_address_byte` at a concrete device and
address bytes 3 and 9. -/
theorem C5_second_address_byte_witness :
    dev0.context.reg_address_written = false ∧
    ((i2c_slave_handler dev0 (I2CEvent.receive 3)).1.context.reg_address = 3 % 256 ∧
     (i2c_slave_handler ((i2c_slave_handler ((i2c_slave_handler dev0
        (I2CEvent.receive 3)).1) I2CEvent.finish).1)
        (I2CEvent.receive 9)).1.context.reg_address = 9 % 256 ∧
     (i2c_slave_handler ((i2c_slave_handler ((i2c_slave_handler dev0
        (I2CEvent.receive 3)).1) I2CEvent.finish).1)
        (I2CEvent.receive 9)).1.context.reg_address_written = true ∧
     (i2c_slave_handler ((i2c_slave_handler ((i2c_slave_handler dev0
        (I2CEvent.receive 3)).1) I2CEvent.finish).1)
        (I2CEvent.receive 9)).1.context.reg = dev0.context.reg ∧
     (i2c_slave_handler ((i2c_slave_handler ((i2c_slave_handler dev0
        (I2CEvent.receive 3)).1) I2CEvent.finish).1)
        (I2CEvent.receive 9)).1.status = dev0.status ∧
     (i2c_slave_handler ((i2c_slave_handler ((i2c_slave_handler dev0
        (I2CEvent.receive 3)).1) I2CEvent.finish).1)
        (I2CEvent.receive 9)).1.gpio = dev0.gpio ∧
     (i2c_slave_handler ((i2c_slave_handler ((i2c_slave_handler dev0
        (I2CEvent.receive 3)).1) I2CEvent.finish).1)
        (I2CEvent.receive 9)).1.queue = dev0.queue ∧
     (i2c_slave_handler dev0 (I2CEvent.receive 3)).2 = none ∧
     (i2c_slave_handler ((i2c_slave_handler ((i2c_slave_handler dev0
        (I2CEvent.receive 3)).1) I2CEvent.finish).1)
        (I2CEvent.receive 9)).2 = none) :=
  ⟨rfl, C5_second_address_byte dev0 3 9 rfl⟩

/-- Witness instantiating `C6_data_byte_store` at a concrete device with
address 11 selected and data byte 200. -/
theorem C6_data_byte_store_witness :
    devW.context.reg_address_written = true ∧
    ((i2c_slave_handler devW (I2CEvent.receive 200)).1 =
      write_command_action { devW with context := { devW.context with
        reg := Function.update devW.context.reg devW.context.reg_address (200 % 256) } } ∧
     (i2c_slave_handler devW (I2CEvent.receive 200)).1.context.reg_address =
       devW.context.reg_address ∧
     (i2c_slave_handler devW (I2CEvent.receive 200)).1.context.reg =
       Function.update devW.context.reg devW.context.reg_address (200 % 256) ∧
     (i2c_slave_handler devW (I2CEvent.receive 200)).1.context.reg devW.context.reg_address =
       200 % 256 ∧
     (i2c_slave_handler devW (I2CEvent.receive 200)).2 = none) :=
  ⟨rfl, C6_data_byte_store devW 200 rfl⟩

/-- C7: enqueueing into a queue whose load equals the capacity returns
`false` and returns the queue unchanged — every stored record, the order,
and the begin/end/load counters are all exactly as before. -/
theorem C7_enqueue_full (q : Queue) (m : MESSAGE) (h : q.current_load = QUEUE_SIZE) :
    enque q m = (false, q) := by
  unfold enque
  rw [h]
  simp

/-- Witness instantiating `C7_enqueue_full` at a concrete full queue. -/
theorem C7_enqueue_full_witness :
    fullQ.current_load = QUEUE_SIZE ∧
    enque fullQ (MESSAGE.bootMsg 0x21) = (false, fullQ) :=
  ⟨rfl, C7_enqueue_full fullQ (MESSAGE.bootMsg 0x21) rfl⟩

/-- On a well-formed, non-full queue, the slot `enque` stores into (the
lazily wrapped end index) is the slot `current_load` places after the begin
index, modulo the capacity. -/
theorem enque_idx (q : Queue) (hwf : q.wf) :
    (if q.«end» = QUEUE_SIZE then 0 else q.«end») =
      (q.begin + q.current_load) % QUEUE_SIZE := by
  by_cases he : q.«end» = QUEUE_SIZE
  · rw [if_pos he]
    have ha := hwf.align
    rw [he] at ha
    simpa [QUEUE_SIZE] using ha
  · rw [if_neg he]
    have h2 : q.«end» < QUEUE_SIZE := lt_of_le_of_ne hwf.end_le he
    have ha := hwf.align
    rwa [Nat.mod_eq_of_lt h2] at ha

/-- `enque` preserves well-formedness. -/
theorem wf_enque (q : Queue) (m : MESSAGE) (hwf : q.wf) : ((enque q m).2).wf := by
  unfold enque
  by_cases hl : q.current_load < QUEUE_SIZE
  · rw [if_pos hl]
    refine ⟨?_, ?_, ?_, ?_⟩
    · dsimp only
      omega
    · exact hwf.begin_lt
    · dsimp only
      by_cases he : q.«end» = QUEUE_SIZE
      · rw [if_pos he]
        norm_num [QUEUE_SIZE]
      · rw [if_neg he]
        have := hwf.end_le
        omega
    · dsimp only
      rw [enque_idx q hwf, Nat.mod_add_mod, Nat.add_assoc]
  · rw [if_neg hl]
    exact hwf

/-- `deque` preserves well-formedness. -/
theorem wf_deque (q : Queue) (hwf : q.wf) : ((deque q).2).wf := by
  unfold deque
  by_cases hl : q.current_load > 0
  · rw [if_pos hl]
    refine ⟨?_, ?_, ?_, ?_⟩
    · dsimp only
      have := hwf.load_le
      omega
    · exact Nat.mod_lt _ (by norm_num [QUEUE_SIZE])
    · exact hwf.end_le
    · dsimp only
      rw [Nat.mod_add_mod,
        show q.begin + 1 + (q.current_load - 1) = q.begin + q.current_load by omega]
      exact hwf.align
  · rw [if_neg hl]
    exact hwf

/-- `init_queue` establishes well-formedness. -/
theorem wf_init (q : Queue) : (init_queue q).wf := by
  refine ⟨?_, ?_, ?_, ?_⟩ <;> simp [init_queue, QUEUE_SIZE]

/-- On a well-formed non-empty queue, `deque` returns the record at the
begin index, which is the head of the arrival-order list, and the remaining
queue abstracts to the tail of that list. -/
theorem deque_toList (q : Queue) (hwf : q.wf) (hl : 0 < q.current_load) :
    q.toList = q.messages q.begin :: ((deque q).2).toList := by
  unfold deque
  rw [if_pos hl]
  dsimp only
  unfold Queue.toList
  dsimp only
  obtain ⟨n, hn⟩ : ∃ n, q.current_load = n + 1 := ⟨q.current_load - 1, by omega⟩
  have hn64 : n + 1 ≤ 64 := by
    have := hwf.load_le
    simp only [QUEUE_SIZE] at this
    omega
  rw [hn]
  rw [List.range_succ_eq_map, List.map_cons, List.map_map]
  simp only [Nat.add_sub_cancel]
  congr 1
  · rw [Nat.add_zero, Nat.mod_eq_of_lt (by simpa [QUEUE_SIZE] using hwf.begin_lt)]
  · apply List.map_congr_left
    intro i hi
    have hi' : i < n := List.mem_range.mp hi
    have hb : q.begin < 64 := by simpa [QUEUE_SIZE] using hwf.begin_lt
    simp only [Function.comp_apply, QUEUE_SIZE]
    have hidx : ((q.begin + 1) % 64 + i) % 64 = (q.begin + Nat.succ i) % 64 := by
      rw [Nat.mod_add_mod]
      congr 1
      omega
    rw [hidx]
    rw [Function.update_noteq]
    intro heq
    omega

/-- On a well-formed non-full queue, `enque` appends the new record to the
arrival-order list. -/
theorem enque_toList (q : Queue) (m : MESSAGE) (hwf : q.wf)
    (hl : q.current_load < QUEUE_SIZE) :
    ((enque q m).2).toList = q.toList ++ [m] := by
  unfold enque
  rw [if_pos hl]
  dsimp only
  unfold Queue.toList
  dsimp only
  rw [List.range_succ, List.map_append, List.map_cons]
  have hb : q.begin < 64 := by simpa [QUEUE_SIZE] using hwf.begin_lt
  have hl64 : q.current_load < 64 := by simpa [QUEUE_SIZE] using hl
  congr 1
  · apply List.map_congr_left
    intro i hi
    have hi' : i < q.current_load := List.mem_range.mp hi
    rw [enque_idx q hwf]
    simp only [QUEUE_SIZE]
    rw [Function.update_noteq]
    intro heq
    omega
  · rw [enque_idx q hwf]
    simp [Function.update_same]

/-- C8: on a well-formed queue, dequeuing the empty queue returns `none`
and leaves the queue unchanged; dequeuing a non-empty queue returns the
record at the begin index — the head of the arrival-order list, i.e. the
oldest live record — zeroes that slot, and leaves the tail of the list;
and a successful enqueue appends to the arrival-order list, so the records
drain strictly in arrival order, never reordered or coalesced. -/
theorem C8_queue_fifo (q : Queue) (hwf : q.wf) :
    (q.current_load = 0 → deque q = (none, q)) ∧
    (0 < q.current_load →
      (deque q).1 = some (q.messages q.begin) ∧
      q.toList = q.messages q.begin :: ((deque q).2).toList ∧
      ((deque q).2).messages q.begin = MESSAGE.zeroMsg) ∧
    (∀ m, q.current_load < QUEUE_SIZE → ((enque q m).2).toList = q.toList ++ [m]) := by
  refine ⟨?_, ?_, ?_⟩
  · intro h0
    unfold deque
    rw [if_neg (by omega)]
  · intro hl
    refine ⟨?_, deque_toList q hwf hl, ?_⟩
    · unfold deque
      rw [if_pos hl]
    · unfold deque
      rw [if_pos hl]
      dsimp only
      exact Function.update_same _ _ _
  · intro m hl
    exact enque_toList q m hwf hl

/-- Witness instantiating `C8_queue_fifo` at a concrete one-record queue. -/
theorem C8_queue_fifo_witness :
    q1.wf ∧
    ((q1.current_load = 0 → deque q1 = (none, q1)) ∧
     (0 < q1.current_load →
       (deque q1).1 = some (q1.messages q1.begin) ∧
       q1.toList = q1.messages q1.begin :: ((deque q1).2).toList ∧
       ((deque q1).2).messages q1.begin = MESSAGE.zeroMsg) ∧
     (∀ m, q1.current_load < QUEUE_SIZE → ((enque q1 m).2).toList = q1.toList ++ [m])) :=
  ⟨⟨by decide, by decide, by decide, by decide⟩,
   C8_queue_fifo q1 ⟨by decide, by decide, by decide, by decide⟩⟩

/-- Any trace of operations from a well-formed queue keeps the queue
well-formed, and the final load plus the number of successful dequeues
equals the initial load plus the number of successful enqueues. -/
theorem runOps_wf_count (ops : List QOp) (q : Queue) (hwf : q.wf) :
    ((runOps q ops).1).wf ∧
    (runOps q ops).1.current_load + (runOps q ops).2.2 =
      q.current_load + (runOps q ops).2.1 := by
  induction ops generalizing q with
  | nil => exact ⟨hwf, by simp [runOps]⟩
  | cons op rest ih =>
    cases op with
    | enq m =>
      have h := ih (enque q m).2 (wf_enque q m hwf)
      have hload : (enque q m).2.current_load =
          q.current_load + (if (enque q m).1 then 1 else 0) := by
        unfold enque
        by_cases hl : q.current_load < QUEUE_SIZE
        · rw [if_pos hl]
          simp
        · rw [if_neg hl]
          simp
      unfold runOps
      dsimp only
      refine ⟨h.1, ?_⟩
      omega
    | deq =>
      have h := ih (deque q).2 (wf_deque q hwf)
      have hload : (deque q).2.current_load + (if (deque q).1.isSome then 1 else 0) =
          q.current_load := by
        unfold deque
        by_cases hl : q.current_load > 0
        · rw [if_pos hl]
          simp only [Option.isSome_some, if_true]
          omega
        · rw [if_neg hl]
          simp
      unfold runOps
      dsimp only
      refine ⟨h.1, ?_⟩
      omega

/-- C10: starting from the initialized queue, after any trace of enqueue and
dequeue operations the load is at most 64, the begin index is below 64, the
end index is at most 64 (it may equal 64 transiently because of the lazy
wrap at the start of the next enqueue), the slot index an enqueue would
store into is within the 64-slot array bounds, and the load equals the
number of records successfully enqueued but not yet dequeued. -/
theorem C10_queue_invariant (q0 : Queue) (ops : List QOp) :
    (runOps (init_queue q0) ops).1.current_load ≤ QUEUE_SIZE ∧
    (runOps (init_queue q0) ops).1.begin < QUEUE_SIZE ∧
    (runOps (init_queue q0) ops).1.«end» ≤ QUEUE_SIZE ∧
    (if (runOps (init_queue q0) ops).1.«end» = QUEUE_SIZE then 0
      else (runOps (init_queue q0) ops).1.«end») < QUEUE_SIZE ∧
    (runOps (init_queue q0) ops).1.current_load + (runOps (init_queue q0) ops).2.2 =
      (runOps (init_queue q0) ops).2.1 := by
  have h := runOps_wf_count ops (init_queue q0) (wf_init q0)
  have hwf := h.1
  refine ⟨hwf.load_le, hwf.begin_lt, hwf.end_le, ?_, ?_⟩
  · by_cases he : (runOps (init_queue q0) ops).1.«end» = QUEUE_SIZE
    · rw [if_pos he]
      norm_num [QUEUE_SIZE]
    · rw [if_neg he]
      exact lt_of_le_of_ne hwf.end_le he
  · have h2 := h.2
    have h0 : (init_queue q0).current_load = 0 := rfl
    omega

/-- C9: when the identity resolved from the strap pins at boot is none of
the recognized addresses 0x21, 0x22, 0x23: the configuration-error flag is
set; the final GPIO state is exactly the pre-switch state piped through the
slave-pin and LED setup — i.e. the per-identity masked direction/output
initialization is skipped; the device still registers as an I2C slave at
the resolved address, records it as its own identity, and still reaches the
background queue-draining loop; and the queue holds the boot record and the
address-not-supported record. -/
theorem C9_unrecognized_identity (wd : Bool) (g0 : GpioState)
    (h1 : boot_identity g0 ≠ 0x21) (h2 : boot_identity g0 ≠ 0x22)
    (h3 : boot_identity g0 ≠ 0x23) :
    (main_boot wd g0).device.status.cfg = true ∧
    (main_boot wd g0).device.gpio =
      led_config (setup_slave_gpio (read_i2c_address (gpio_init_mask g0 GPIO_BOOT_MASK)).1) ∧
    (main_boot wd g0).slaveRegisteredAt = some (boot_identity g0) ∧
    (main_boot wd g0).device.context.i2c_add = boot_identity g0 ∧
    (main_boot wd g0).entersMainLoop = true ∧
    (main_boot wd g0).device.queue.current_load = 2 ∧
    (main_boot wd g0).device.queue.messages 1 =
      MESSAGE.addrNotSupportedMsg (boot_identity g0) := by
  unfold boot_identity at h1 h2 h3 ⊢
  unfold main_boot
  dsimp only
  unfold identity_config
  rw [if_neg h1, if_neg (not_or.mpr ⟨h2, h3⟩)]
  refine ⟨rfl, rfl, rfl, rfl, rfl, rfl, rfl⟩

/-- Witness instantiating `C9_unrecognized_identity` with both strap pins
reading low, which resolves the unrecognized identity 0x20. -/
theorem C9_unrecognized_identity_witness :
    boot_identity gpio0 ≠ 0x21 ∧ boot_identity gpio0 ≠ 0x22 ∧
    boot_identity gpio0 ≠ 0x23 ∧
    ((main_boot false gpio0).device.status.cfg = true ∧
     (main_boot false gpio0).device.gpio =
       led_config (setup_slave_gpio (read_i2c_address (gpio_init_mask gpio0 GPIO_BOOT_MASK)).1) ∧
     (main_boot false gpio0).slaveRegisteredAt = some (boot_identity gpio0) ∧
     (main_boot false gpio0).device.context.i2c_add = boot_identity gpio0 ∧
     (main_boot false gpio0).entersMainLoop = true ∧
     (main_boot false gpio0).device.queue.current_load = 2 ∧
     (main_boot false gpio0).device.queue.messages 1 =
       MESSAGE.addrNotSupportedMsg (boot_identity gpio0)) :=
  ⟨by decide, by decide, by decide,
   C9_unrecognized_identity false gpio0 (by decide) (by decide) (by decide)⟩
